import Mathlib

/-!
Shallow embedding of the grant-vetting tool's Content Risk Analysis Engine
(`analyzers/keywords.py`, `analyzers/guidelines.py`,
`data/regime_classifications.py`).

Text is modelled as `List Char`; Python string slicing, `str.lower` and list
membership translate to the corresponding list operations (ASCII case
folding, which covers every case the engine's own data exercises).  The
Python `re` module is modelled by an abstract `Matcher` argument: given a
pattern string and the lowercased text, it returns `none` when the pattern
is malformed (`re.error` raised by `re.finditer`) and `some spans`
otherwise, where each span is a `(start, stop)` pair corresponding to
`match.start()`/`match.end()`.  The literal substring scans of
`check_for_authoritarian_mentions` (escaped literals, with or without word
boundaries) are implemented concretely, mirroring `re.finditer` semantics
for those patterns: leftmost matches, non-overlapping.
-/


abbrev Text := List Char

/-- Python `str.lower()` on the texts the engine handles. -/
def toLowerText (t : Text) : Text := t.map Char.toLower

/-- Model of `re.finditer(pattern, text)`: `none` when the pattern is
malformed (`re.error`), otherwise the list of `(start(), end())` spans. -/
abbrev Matcher := String → Text → Option (List (Nat × Nat))

/-- The keyword database of `KeywordAnalyzer`: an insertion-ordered dict
`category -> list of (pattern, severity)`, severities being strings. -/
abbrev KeywordDB := List (String × List (String × String))

/-- `KeywordMatch` dataclass (keywords.py lines 25-32). -/
structure KeywordMatch where
  keyword : Text
  category : String
  severity : String
  context : Text
  position : Nat
deriving DecidableEq

/-- Context extraction in `analyze_text` (keywords.py lines 208-217):
up to 50 characters of original-case text on either side of the match,
with a `'...'` marker exactly when the window stops short of the
corresponding end of the text. -/
def extractContext (text : Text) (s e : Nat) : Text :=
  let start := s - 50
  let stop := min text.length (e + 50)
  let ctx := (text.drop start).take (stop - start)
  let ctx2 := if 0 < start then ['.', '.', '.'] ++ ctx else ctx
  if stop < text.length then ctx2 ++ ['.', '.', '.'] else ctx2

/-- Construction of one `KeywordMatch` inside `analyze_text`
(keywords.py lines 219-225): `match.group(0)` is the matched slice of the
lowercased text, the context is cut from the original text. -/
def mkKeywordMatch (text textLower : Text) (category severity : String)
    (sp : Nat × Nat) : KeywordMatch :=
  { keyword := (textLower.drop sp.1).take (sp.2 - sp.1)
    category := category
    severity := severity
    context := extractContext text sp.1 sp.2
    position := sp.1 }

/-- `categories or list(self.keywords.keys())` (keywords.py line 199):
Python `or` falls back to all database keys when `categories` is `None`
or the empty list. -/
def categoriesToCheck (db : KeywordDB) (categories : Option (List String)) :
    List String :=
  match categories with
  | none => db.map (fun kv => kv.1)
  | some [] => db.map (fun kv => kv.1)
  | some cs => cs

/-- `KeywordAnalyzer.analyze_text` (keywords.py lines 182-230).  Empty text
returns `[]`; otherwise every requested category present in the database is
scanned pattern by pattern against the lowercased text, a malformed pattern
(`M` returns `none`) is skipped, and every span becomes a `KeywordMatch`. -/
def analyze_text (M : Matcher) (db : KeywordDB) (text : Text)
    (categories : Option (List String)) : List KeywordMatch :=
  if text.isEmpty then [] else
  let textLower := toLowerText text
  (categoriesToCheck db categories).flatMap (fun cat =>
    match db.lookup cat with
    | none => []
    | some pats =>
      pats.flatMap (fun ps =>
        match M ps.1 textLower with
        | none => []
        | some spans => spans.map (mkKeywordMatch text textLower cat ps.2)))

/-- All pattern strings appearing in a keyword database, over every
category. -/
def dbPatterns (db : KeywordDB) : List String :=
  db.flatMap (fun kv => kv.2.map (fun ps => ps.1))

/-- The matcher reports no span for any pattern of the database on the
lowercased text (a malformed pattern, reporting `none`, also counts as
producing no span). -/
abbrev noMatches (M : Matcher) (db : KeywordDB) (text : Text) : Prop :=
  ∀ p ∈ dbPatterns db, (M p (toLowerText text)).getD [] = []

/-- A keyword database with every pattern on which the matcher fails
(`re.error`) removed from its category, the categories themselves kept. -/
def wellFormedOnly (M : Matcher) (textLower : Text) (db : KeywordDB) :
    KeywordDB :=
  db.map (fun kv => (kv.1, kv.2.filter (fun ps => (M ps.1 textLower).isSome)))

/-- `ContentFlag` dataclass (guidelines.py lines 28-41).  Free-text fields
built by f-strings are `String`s; evidence snippets are slices of the
analysed text, hence `Text`. -/
structure ContentFlag where
  category : String
  severity : String
  title : String
  description : String
  evidence_snippet : Option Text := none
  matched_keywords : List Text := []
  guideline_reference : Option String := none
  content_source : Option String := none
  content_url : Option String := none
  published_at : Option String := none
deriving DecidableEq

/-! Static data of `data/regime_classifications.py`, transcribed verbatim. -/
def AMERICAS_DEMOCRATIC : List String :=
  ["Argentina", "Belize", "Brazil", "Canada", "Chile", "Colombia",
   "Costa Rica", "Dominican Republic", "Ecuador", "Guatemala", "Guyana",
   "Jamaica", "Mexico", "Panama", "Paraguay", "Peru", "Suriname",
   "United States of America", "United States", "USA", "Uruguay",
   "Saint Kitts and Nevis", "Dominica", "Antigua and Barbuda",
   "Saint Vincent and the Grenadines", "Grenada", "St Lucia",
   "Saint Lucia", "Barbados", "Bahamas", "Trinidad and Tobago"]

def AMERICAS_HYBRID_AUTHORITARIAN : List String :=
  ["Bolivia", "El Salvador", "Honduras"]

def AMERICAS_FULLY_AUTHORITARIAN : List String :=
  ["Cuba", "Nicaragua", "Venezuela"]

def AMERICAS_UNCLASSIFIED : List String := ["Haiti"]

def MENA_DEMOCRATIC : List String := ["Israel"]

def MENA_HYBRID_AUTHORITARIAN : List String := ["Iraq", "Lebanon"]

def MENA_FULLY_AUTHORITARIAN : List String :=
  ["Algeria", "Bahrain", "Egypt", "Iran", "Jordan", "Kuwait", "Libya",
   "Morocco", "Oman", "Qatar", "Saudi Arabia", "Syria", "Tunisia",
   "United Arab Emirates", "UAE", "Yemen"]

def EUROPE_DEMOCRATIC : List String :=
  ["Albania", "Armenia", "Austria", "Belgium", "Bosnia and Herzegovina",
   "Bulgaria", "Croatia", "Czech Republic", "Czechia", "Cyprus",
   "Denmark", "Estonia", "Finland", "France", "Germany", "Greece",
   "Iceland", "Ireland", "Italy", "Latvia", "Lithuania", "Luxembourg",
   "Moldova", "Montenegro", "Kosovo", "North Macedonia", "Netherlands",
   "Norway", "Poland", "Portugal", "Romania", "Sweden", "Switzerland",
   "Slovakia", "Slovenia", "Spain", "Ukraine", "United Kingdom", "UK",
   "Britain", "Great Britain", "San Marino", "Monaco", "Liechtenstein",
   "Andorra", "Malta"]

def EUROPE_HYBRID_AUTHORITARIAN : List String :=
  ["Georgia", "Hungary", "Serbia"]

def EUROPE_FULLY_AUTHORITARIAN : List String :=
  ["Azerbaijan", "Belarus", "Kazakhstan", "Russia", "Russian Federation",
   "Tajikistan", "Turkmenistan", "Turkey", "Uzbekistan", "Kyrgyzstan"]

def ASIA_PACIFIC_DEMOCRATIC : List String :=
  ["Australia", "Bhutan", "Japan", "Mongolia", "Nepal", "New Zealand",
   "Papua New Guinea", "South Korea", "Republic of Korea", "Taiwan",
   "Timor-Leste", "East Timor", "Sri Lanka", "Micronesia", "Tuvalu",
   "Nauru", "Palau", "Marshall Islands", "Tonga", "Kiribati", "Samoa",
   "Vanuatu", "Solomon Islands"]

def ASIA_PACIFIC_HYBRID_AUTHORITARIAN : List String :=
  ["Bangladesh", "Fiji", "India", "Malaysia", "Maldives", "Pakistan",
   "Philippines", "Singapore", "Thailand", "Indonesia"]

def ASIA_PACIFIC_FULLY_AUTHORITARIAN : List String :=
  ["Afghanistan", "Brunei", "Burma", "Myanmar", "Cambodia", "China",
   "PRC", "People\x27s Republic of China", "Laos", "North Korea", "DPRK",
   "Democratic People\x27s Republic of Korea", "Vietnam"]

def AFRICA_DEMOCRATIC : List String :=
  ["Botswana", "Ghana", "Lesotho", "Liberia", "Namibia", "South Africa",
   "Cape Verde", "Cabo Verde", "Mauritius", "Sao Tome and Principe",
   "Seychelles"]

def AFRICA_HYBRID_AUTHORITARIAN : List String :=
  ["Benin", "Côte d\x27Ivoire", "Cote d\x27Ivoire", "Ivory Coast",
   "The Gambia", "Gambia", "Kenya", "Madagascar", "Malawi", "Senegal",
   "Sierra Leone", "Togo", "Zambia"]

def AFRICA_FULLY_AUTHORITARIAN : List String :=
  ["Angola", "Burundi", "Burkina Faso", "Cameroon",
   "Central African Republic", "CAR", "Chad", "Comoros",
   "Democratic Republic of Congo", "DRC", "DR Congo", "Congo-Kinshasa",
   "Djibouti", "Equatorial Guinea", "Eritrea", "Ethiopia", "Gabon",
   "Guinea", "Guinea-Bissau", "Mali", "Mauritania", "Mozambique",
   "Niger", "Nigeria", "Republic of Congo", "Congo-Brazzaville",
   "Rwanda", "Somalia", "South Sudan", "Sudan", "Swaziland", "Eswatini",
   "Uganda", "Tanzania", "Zimbabwe"]

def ALL_DEMOCRATIC : List String :=
  AMERICAS_DEMOCRATIC ++ MENA_DEMOCRATIC ++ EUROPE_DEMOCRATIC ++
    ASIA_PACIFIC_DEMOCRATIC ++ AFRICA_DEMOCRATIC

def ALL_HYBRID_AUTHORITARIAN : List String :=
  AMERICAS_HYBRID_AUTHORITARIAN ++ MENA_HYBRID_AUTHORITARIAN ++
    EUROPE_HYBRID_AUTHORITARIAN ++ ASIA_PACIFIC_HYBRID_AUTHORITARIAN ++
    AFRICA_HYBRID_AUTHORITARIAN

def ALL_FULLY_AUTHORITARIAN : List String :=
  AMERICAS_FULLY_AUTHORITARIAN ++ MENA_FULLY_AUTHORITARIAN ++
    EUROPE_FULLY_AUTHORITARIAN ++ ASIA_PACIFIC_FULLY_AUTHORITARIAN ++
    AFRICA_FULLY_AUTHORITARIAN

def ALL_UNCLASSIFIED : List String := AMERICAS_UNCLASSIFIED

/-- `KNOWN_AUTHORITARIAN_LEADERS` (regime_classifications.py lines
426-501). -/
def KNOWN_AUTHORITARIAN_LEADERS : List String :=
  ["Xi Jinping", "Kim Jong Un", "Kim Jong-un", "Vladimir Putin", "Putin",
   "Alexander Lukashenko", "Lukashenko", "Bashar al-Assad", "Assad",
   "Nicolás Maduro", "Nicolas Maduro", "Maduro", "Daniel Ortega",
   "Ortega", "Miguel Díaz-Canel", "Díaz-Canel", "Diaz-Canel",
   "Ayatollah Khamenei", "Khamenei", "Mohammed bin Salman", "MBS",
   "Abdel Fattah el-Sisi", "el-Sisi", "Sisi", "Ilham Aliyev", "Aliyev",
   "Gurbanguly Berdimuhamedow", "Serdar Berdimuhamedow",
   "Emomali Rahmon", "Islam Karimov", "Shavkat Mirziyoyev", "Hun Sen",
   "Hun Manet", "Recep Tayyip Erdoğan", "Erdogan", "Paul Kagame",
   "Kagame", "Yoweri Museveni", "Museveni", "Isaias Afwerki",
   "Teodoro Obiang", "Obiang", "Stalin", "Joseph Stalin", "Mao Zedong",
   "Mao Tse-tung", "Mao", "Adolf Hitler", "Hitler", "Pol Pot",
   "Fidel Castro", "Castro", "Muammar Gaddafi", "Gaddafi", "Qaddafi",
   "Saddam Hussein", "Saddam", "Robert Mugabe", "Mugabe", "Idi Amin",
   "Pinochet", "Augusto Pinochet", "Francisco Franco", "Franco",
   "Benito Mussolini", "Mussolini", "Kim Il-sung", "Kim Jong-il",
   "Hugo Chávez", "Hugo Chavez", "Chavez"]

/-- `AUTHORITARIAN_ENTITIES` (regime_classifications.py lines 504-520). -/
def AUTHORITARIAN_ENTITIES : List String :=
  ["Chinese Communist Party", "CCP", "CPC", "Communist Party of China",
   "United Russia", "Kremlin", "FSB", "KGB", "IRGC",
   "Islamic Revolutionary Guard Corps", "Hezbollah", "Hamas",
   "Wagner Group", "Colectivos", "Basij"]

/-- Python regex word character `\w`, ASCII fragment (letters, digits,
underscore), which covers the engine's own country data for ASCII text. -/
def isWordChar (c : Char) : Bool := c.isAlphanum || c == '_'

/-- Whether position `i` of the text holds a word character (out of range
counts as non-word, as regex treats the ends of the string). -/
def wordAt (t : Text) (i : Nat) : Bool := isWordChar (t.getD i ' ')

/-- The `\b` word-boundary assertion of Python regex at position `i`. -/
def isBoundary (t : Text) (i : Nat) : Bool :=
  match i with
  | 0 => wordAt t 0
  | j + 1 => wordAt t j != wordAt t (j + 1)

/-- `re.finditer` of an escaped literal: leftmost, non-overlapping
occurrences of `lit` in `t` from position `i`, as `(start, stop)` spans. -/
def findIterFrom (lit t : Text) (i : Nat) : List (Nat × Nat) :=
  if h : i + lit.length ≤ t.length then
    if lit.isPrefixOf (t.drop i) then
      (i, i + lit.length) :: findIterFrom lit t (i + max lit.length 1)
    else findIterFrom lit t (i + 1)
  else []
termination_by t.length + 1 - i
decreasing_by
  · have h1 : 1 ≤ max lit.length 1 := Nat.le_max_right _ _
    omega
  · omega

def findIter (lit t : Text) : List (Nat × Nat) := findIterFrom lit t 0

/-- `re.finditer` of `\b<escaped literal>\b`: as `findIterFrom` but a span
is only a match when both ends sit on a word boundary. -/
def findIterBFrom (lit t : Text) (i : Nat) : List (Nat × Nat) :=
  if h : i + lit.length ≤ t.length then
    if lit.isPrefixOf (t.drop i) && isBoundary t i &&
        isBoundary t (i + lit.length) then
      (i, i + lit.length) :: findIterBFrom lit t (i + max lit.length 1)
    else findIterBFrom lit t (i + 1)
  else []
termination_by t.length + 1 - i
decreasing_by
  · have h1 : 1 ≤ max lit.length 1 := Nat.le_max_right _ _
    omega
  · omega

def findIterB (lit t : Text) : List (Nat × Nat) := findIterBFrom lit t 0

/-- Context extraction in `check_for_authoritarian_mentions` (keywords.py
lines 245-247 etc.): 50 characters either side, with no ellipsis marker,
unlike `analyze_text`. -/
def mentionContext (text : Text) (s e : Nat) : Text :=
  (text.drop (s - 50)).take (min text.length (e + 50) - (s - 50))

/-- Construction of one mention `KeywordMatch` (keywords.py lines 249-255,
265-271, 283-289): the keyword is the original-case name from the data
table. -/
def mkMention (text : Text) (name : String) (category severity : String)
    (sp : Nat × Nat) : KeywordMatch :=
  { keyword := name.data
    category := category
    severity := severity
    context := mentionContext text sp.1 sp.2
    position := sp.1 }

/-- `KeywordAnalyzer.check_for_authoritarian_mentions` (keywords.py lines
232-291): leaders and entities are scanned as plain escaped literals on
the lowercased text, countries with `\b` anchors on both sides. -/
def check_for_authoritarian_mentions (text : Text) : List KeywordMatch :=
  let textLower := toLowerText text
  (KNOWN_AUTHORITARIAN_LEADERS.flatMap (fun leader =>
    (findIter (toLowerText leader.data) textLower).map
      (mkMention text leader "authoritarian_mention" "medium")))
  ++ (AUTHORITARIAN_ENTITIES.flatMap (fun entity =>
    (findIter (toLowerText entity.data) textLower).map
      (mkMention text entity "authoritarian_entity_mention" "medium")))
  ++ ((ALL_FULLY_AUTHORITARIAN ++ ALL_HYBRID_AUTHORITARIAN).flatMap
    (fun country =>
      (findIterB (toLowerText country.data) textLower).map
        (mkMention text country "authoritarian_country_mention" "low")))

/-- Return value of `get_regime_classification`: a dict with keys
`classification`, `region`, `is_authoritarian`. -/
structure RegimeClassification where
  classification : String
  region : String
  is_authoritarian : Bool
deriving DecidableEq

/-- `_get_region` (regime_classifications.py lines 372-407). -/
def get_region (country : String) (classification_type : String) : String :=
  if classification_type = "democratic" then
    if AMERICAS_DEMOCRATIC.contains country then "americas"
    else if MENA_DEMOCRATIC.contains country then "middle_east_north_africa"
    else if EUROPE_DEMOCRATIC.contains country then "europe_central_asia"
    else if ASIA_PACIFIC_DEMOCRATIC.contains country then "asia_pacific"
    else if AFRICA_DEMOCRATIC.contains country then "africa"
    else "unknown"
  else if classification_type = "hybrid" then
    if AMERICAS_HYBRID_AUTHORITARIAN.contains country then "americas"
    else if MENA_HYBRID_AUTHORITARIAN.contains country then
      "middle_east_north_africa"
    else if EUROPE_HYBRID_AUTHORITARIAN.contains country then
      "europe_central_asia"
    else if ASIA_PACIFIC_HYBRID_AUTHORITARIAN.contains country then
      "asia_pacific"
    else if AFRICA_HYBRID_AUTHORITARIAN.contains country then "africa"
    else "unknown"
  else if classification_type = "authoritarian" then
    if AMERICAS_FULLY_AUTHORITARIAN.contains country then "americas"
    else if MENA_FULLY_AUTHORITARIAN.contains country then
      "middle_east_north_africa"
    else if EUROPE_FULLY_AUTHORITARIAN.contains country then
      "europe_central_asia"
    else if ASIA_PACIFIC_FULLY_AUTHORITARIAN.contains country then
      "asia_pacific"
    else if AFRICA_FULLY_AUTHORITARIAN.contains country then "africa"
    else "unknown"
  else "unknown"

/-- Python `str.strip()`: drop whitespace from both ends (list-based so it
evaluates inside the kernel). -/
def pyStrip (s : String) : String :=
  String.mk
    (((s.data.dropWhile Char.isWhitespace).reverse.dropWhile
      Char.isWhitespace).reverse)

/-- `get_regime_classification` (regime_classifications.py lines 322-369):
a pure membership lookup on the stripped country name, falling back to
`unknown` with `is_authoritarian = False`. -/
def get_regime_classification (country : String) : RegimeClassification :=
  let c := pyStrip country
  if ALL_DEMOCRATIC.contains c then
    ⟨"democratic", get_region c "democratic", false⟩
  else if ALL_HYBRID_AUTHORITARIAN.contains c then
    ⟨"hybrid_authoritarian", get_region c "hybrid", true⟩
  else if ALL_FULLY_AUTHORITARIAN.contains c then
    ⟨"fully_authoritarian", get_region c "authoritarian", true⟩
  else if ALL_UNCLASSIFIED.contains c then
    ⟨"unclassified", "americas", false⟩
  else ⟨"unknown", "unknown", false⟩

/-- `is_authoritarian_regime` (regime_classifications.py lines 410-412). -/
def is_authoritarian_regime (country : String) : Bool :=
  (get_regime_classification country).is_authoritarian

/-- `_calculate_risk_score`'s severity weight table with its
`dict.get(severity, 0)` default (guidelines.py lines 361-371). -/
def severity_weights (s : String) : Nat :=
  if s = "critical" then 30
  else if s = "high" then 20
  else if s = "medium" then 10
  else if s = "low" then 3
  else 0

/-- `GuidelinesAnalyzer._calculate_risk_score` (guidelines.py lines 356-374). -/
def calculate_risk_score (flags : List ContentFlag) : Nat :=
  if flags = [] then 0
  else min 100 ((flags.map (fun f => severity_weights f.severity)).sum)

/-- `GuidelinesAnalyzer._determine_risk_level` (guidelines.py lines 376-385). -/
def determine_risk_level (score : Nat) : String :=
  if score ≥ 70 then "critical"
  else if score ≥ 40 then "high"
  else if score ≥ 20 then "medium"
  else "low"

/-- The auto-reject category set of `_generate_recommendation`
(guidelines.py line 390). -/
def critical_categories : List String :=
  ["violence_advocacy", "hate_speech", "despot_admiration"]

/-- The predicate selecting `critical_flags` in `_generate_recommendation`
(guidelines.py lines 391-395). -/
def isAutoRejectFlag (f : ContentFlag) : Bool :=
  f.severity == "critical" ||
    (f.severity == "high" && critical_categories.contains f.category)

/-- `GuidelinesAnalyzer._generate_recommendation` (guidelines.py lines
387-411), taking the flag list together with the `risk_score` and
`risk_level` fields of the result it reads. -/
def generate_recommendation (flags : List ContentFlag) (score : Nat)
    (level : String) : String :=
  if flags.filter isAutoRejectFlag ≠ [] then "reject"
  else if level = "high" ∨ level = "critical" then "pending_review"
  else if level = "medium" then "pending_review"
  else if score < 10 ∧
      ¬ (flags.any (fun f => f.severity == "high" || f.severity == "critical")) then
    "approve"
  else "pending_review"

/-- Modelled from the claim wording for comparison with the source: the
§4.3 decision procedure, first matching rule wins — reject on any critical
flag or any high flag in the auto-reject set; else pending review when the
risk level is medium, high or critical; else approve when the score is
below 10 and no flag is high or critical; else pending review. -/
def recommendationSpec (flags : List ContentFlag) : String :=
  let score := calculate_risk_score flags
  let level := determine_risk_level score
  if flags.any isAutoRejectFlag then "reject"
  else if level = "medium" ∨ level = "high" ∨ level = "critical" then
    "pending_review"
  else if score < 10 ∧
      ¬ (flags.any (fun f => f.severity == "high" || f.severity == "critical")) then
    "approve"
  else "pending_review"

/-- Rank of the four risk levels in the order low < medium < high <
critical, used to state monotonicity of `determine_risk_level`. -/
def riskLevelRank (level : String) : Nat :=
  if level = "critical" then 3
  else if level = "high" then 2
  else if level = "medium" then 1
  else 0

/-- A concrete critical-severity flag used by witnesses. -/
def criticalFlagW : ContentFlag :=
  { category := "hate_speech", severity := "critical",
    title := "t", description := "d" }

/-- `severity_order` in `_analyze_content` (guidelines.py line 292). -/
def severity_order : List String := ["critical", "high", "medium", "low"]

/-- The sort key of `best_match` (guidelines.py line 300):
`severity_order.index(m.severity)` when present, else 99.  Note the order
list starts with `critical`, so a numerically larger key means a LESS
severe match. -/
def sevIndexKey (s : String) : Nat :=
  match severity_order.findIdx? (fun x => x == s) with
  | some i => i
  | none => 99

/-- The insertion-ordered keys of the `matches_by_category` dict
(guidelines.py lines 283-287): first occurrence order. -/
def categoryKeys (ms : List KeywordMatch) : List String :=
  ms.foldl (fun acc m =>
    if acc.contains m.category then acc else acc ++ [m.category]) []

/-- The per-category group of the `matches_by_category` dict. -/
def groupFor (ms : List KeywordMatch) (cat : String) : List KeywordMatch :=
  ms.filter (fun m => m.category == cat)

/-- The `highest_severity` loop of `_analyze_content` (guidelines.py lines
293-297): first severity of `severity_order` present in the group,
defaulting to `low`. -/
def highestSeverity (g : List KeywordMatch) : String :=
  (severity_order.find? (fun sev => g.any (fun m => m.severity == sev))).getD
    "low"

/-- `max(category_matches, key=...)` (guidelines.py line 300): Python `max`
keeps the first element whose key is maximal, so a later element replaces
the current best only when its key is strictly greater. -/
def bestMatch (g : List KeywordMatch) : Option KeywordMatch :=
  g.foldl (fun acc m =>
    match acc with
    | none => some m
    | some b =>
      if sevIndexKey b.severity < sevIndexKey m.severity then some m
      else some b) none

/-- The `GUIDELINES` table (guidelines.py lines 103-164):
category -> (title, description, reference). -/
def GUIDELINES : List (String × String × String × String) :=
  [("authoritarian_connection",
    ("Authoritarian Regime Connection",
     ("Individual is from and/or doing work relevant to a country with an authoritarian regime.",
      "Guideline 1"))),
   ("democracy_criticism",
    ("Unqualified Democracy Criticism",
     ("Engaged in unqualified criticism of democracies, making blunt equivalences between democracies and non-democracies.",
      "Guideline 2"))),
   ("political_partisanship",
    ("Excessive Political Partisanship",
     ("Displayed excessive political partisanship when dealing with democratic governments on social media.",
      "Guideline 3"))),
   ("violence_advocacy",
    ("Violence Advocacy",
     ("Has used or advocated for the use of violence as a valid method to fight government oppression.",
      "Guideline 4"))),
   ("hate_speech",
    ("Hate Speech / Intolerance",
     ("Expressed xenophobic, homophobic, or other intolerant views or opinions, or displayed clear instances of hate speech.",
      "Guideline 5"))),
   ("regime_praise",
    ("Authoritarian Regime Relationship/Praise",
     ("Has a relationship with, or expressed praise for, hybrid authoritarian or fully authoritarian regimes.",
      "Guideline 6"))),
   ("despot_admiration",
    ("Despot/Dictator Admiration",
     ("Expressed admiration for despots, dictators, or tyrants.",
      "Guideline 7"))),
   ("financial_dealings",
    ("Financial Dealings with Dictatorships",
     ("Engaged in significant financial or commercial dealings with dictatorships or their instrumentalities.",
      "Guideline 8"))),
   ("unprofessional",
    ("Lack of Professionalism",
     ("Displays a lack of professionalism.",
      "Guideline 9"))),
   ("criminal_record",
    ("Criminal Record",
     ("Has been investigated for, charged with, or convicted of any type of crime.",
      "Guideline 10"))),
   ("sanctions",
    ("International Sanctions",
     ("Subject to international sanctions.",
      "Guideline 11"))),
   ("business_concerns",
    ("Business Ownership Concerns",
     ("Owner or operator of private companies that HRF should be aware of.",
      "Guideline 12")))]

/-- `self.GUIDELINES.get(category)` as an association-list lookup. -/
def guidelineLookup (cat : String) : Option (String × String × String) :=
  GUIDELINES.lookup cat

/-- The mapping table of `_map_keyword_to_guideline` (guidelines.py lines
341-353). -/
def keyword_guideline_mapping : List (String × String) :=
  [("violence_advocacy", "violence_advocacy"),
   ("hate_speech", "hate_speech"),
   ("regime_praise", "regime_praise"),
   ("democracy_criticism", "democracy_criticism"),
   ("despot_admiration", "despot_admiration"),
   ("financial_dealings", "financial_dealings"),
   ("unprofessional", "unprofessional"),
   ("criminal_activity", "criminal_record"),
   ("authoritarian_mention", "regime_praise"),
   ("authoritarian_entity_mention", "regime_praise"),
   ("authoritarian_country_mention", "authoritarian_connection")]

/-- `_map_keyword_to_guideline` (guidelines.py lines 339-354):
`mapping.get(keyword_category, keyword_category)`. -/
def map_keyword_to_guideline (c : String) : String :=
  (keyword_guideline_mapping.lookup c).getD c

/-- `GuidelinesAnalyzer._analyze_content` (guidelines.py lines 269-337):
group the detector matches by category, emit one flag per category with
the group's highest severity and the `best_match` evidence snippet, then
in strict mode append up to 5 informational mention flags. -/
def analyze_content (M : Matcher) (db : KeywordDB) (strict : Bool)
    (text : Text) (source : String) (url : Option String)
    (published_at : Option String) : List ContentFlag :=
  let ms := analyze_text M db text none
  let flags := (categoryKeys ms).flatMap (fun cat =>
    let g := groupFor ms cat
    match bestMatch g with
    | none => []
    | some best =>
      let gcat := map_keyword_to_guideline cat
      let gl := guidelineLookup gcat
      [{ category := gcat
         severity := highestSeverity g
         title := (gl.map (fun x => x.1)).getD ("Potential Issue: " ++ cat)
         description :=
           "Content may violate: " ++ ((gl.map (fun x => x.2.1)).getD cat)
         evidence_snippet := some best.context
         matched_keywords := g.map (fun m => m.keyword)
         guideline_reference := gl.map (fun x => x.2.2)
         content_source := some source
         content_url := url
         published_at := published_at }])
  if strict && !(check_for_authoritarian_mentions text).isEmpty then
    flags ++ ((check_for_authoritarian_mentions text).take 5).map (fun m =>
      { category := "regime_praise"
        severity := "low"
        title := "Mentions " ++ String.mk m.keyword
        description := "Content mentions " ++ (m.category.replace "_" " ")
          ++ ": " ++ String.mk m.keyword
        evidence_snippet := some m.context
        matched_keywords := [m.keyword]
        content_source := some source
        content_url := url
        published_at := published_at })
  else flags

/-- `GuidelinesAnalyzer._check_country` (guidelines.py lines 245-267). -/
def check_country (country : String) : List ContentFlag :=
  let cls := get_regime_classification country
  if cls.classification = "fully_authoritarian" then
    [{ category := "authoritarian_connection"
       severity := "high"
       title := "From Fully Authoritarian Regime: " ++ country
       description := "The applicant is from " ++ country ++
         ", which is classified as a fully authoritarian regime."
       guideline_reference := some "Guideline 1" }]
  else if cls.classification = "hybrid_authoritarian" then
    [{ category := "authoritarian_connection"
       severity := "medium"
       title := "From Hybrid Authoritarian Regime: " ++ country
       description := "The applicant is from " ++ country ++
         ", which is classified as a hybrid authoritarian regime."
       guideline_reference := some "Guideline 1" }]
  else []

/-- The applicant record fields the engine reads (`applicant_data.get`). -/
structure Applicant where
  id : Option Nat := none
  country : Option String := none

/-- One content item as consumed by `analyze_applicant`. -/
structure ContentItem where
  text_content : Text := []
  platform : Option String := none
  url : Option String := none
  published_at : Option String := none

/-- One social profile as consumed by `analyze_applicant`. -/
structure SocialProfile where
  platform : Option String := none
  bio : Text := []
  url : Option String := none

/-- The per-item step of `analyze_applicant` (guidelines.py lines 212-223):
empty text is skipped. -/
def contentItemFlags (M : Matcher) (db : KeywordDB) (strict : Bool)
    (item : ContentItem) : List ContentFlag :=
  if item.text_content.isEmpty then []
  else analyze_content M db strict item.text_content
    (item.platform.getD "unknown") item.url item.published_at

/-- The per-bio step of `analyze_applicant` (guidelines.py lines 226-235):
empty bio is skipped, the source is the platform suffixed `_bio`. -/
def profileBioFlags (M : Matcher) (db : KeywordDB) (strict : Bool)
    (p : SocialProfile) : List ContentFlag :=
  if p.bio.isEmpty then []
  else analyze_content M db strict p.bio
    ((p.platform.getD "unknown") ++ "_bio") p.url none

/-- The country check of `analyze_applicant` (guidelines.py lines
205-209): Python truthiness skips both a missing and an empty country. -/
def countryFlags (app : Applicant) : List ContentFlag :=
  match app.country with
  | none => []
  | some c => if c.isEmpty then [] else check_country c

def profileFlags (M : Matcher) (db : KeywordDB) (strict : Bool)
    (profiles : Option (List SocialProfile)) : List ContentFlag :=
  match profiles with
  | none => []
  | some ps => ps.flatMap (profileBioFlags M db strict)

/-- The full ordered flag list accumulated by `analyze_applicant`:
country flags, then content flags in item order, then bio flags. -/
def applicantFlags (M : Matcher) (db : KeywordDB) (strict : Bool)
    (app : Applicant) (items : List ContentItem)
    (profiles : Option (List SocialProfile)) : List ContentFlag :=
  countryFlags app ++ items.flatMap (contentItemFlags M db strict) ++
    profileFlags M db strict profiles

/-- `AnalysisResult` dataclass (guidelines.py lines 57-67), minus the
wall-clock `analyzed_at` timestamp, which has no behavioural content. -/
structure AnalysisResult where
  applicant_id : Option Nat
  total_content_items : Nat
  flags : List ContentFlag
  risk_score : Nat
  risk_level : String
  recommendation : String
  summary : String
deriving DecidableEq

def countSeverity (flags : List ContentFlag) (s : String) : Nat :=
  (flags.filter (fun f => f.severity == s)).length

/-- Insertion-ordered keys of the `category_counts` dict in
`_generate_summary`. -/
def flagCategoryKeys (flags : List ContentFlag) : List String :=
  flags.foldl (fun acc f =>
    if acc.contains f.category then acc else acc ++ [f.category]) []

/-- `GuidelinesAnalyzer._generate_summary` (guidelines.py lines 413-447). -/
def generate_summary (flags : List ContentFlag) (level recommendation : String) :
    String :=
  if flags = [] then
    "No concerning content found. Applicant appears to meet vetting guidelines."
  else
    String.intercalate " "
      (["Analysis found " ++ toString flags.length ++ " potential issue(s)."]
        ++ (if countSeverity flags "critical" ≠ 0 then
              ["CRITICAL: " ++ toString (countSeverity flags "critical") ++
                " critical issue(s) found."]
            else [])
        ++ (if countSeverity flags "high" ≠ 0 then
              ["HIGH: " ++ toString (countSeverity flags "high") ++
                " high-severity issue(s) found."]
            else [])
        ++ ["Categories: " ++ String.intercalate ", "
              ((flagCategoryKeys flags).map (fun c =>
                ((guidelineLookup c).map (fun x => x.1)).getD c))]
        ++ ["Risk Level: " ++ level.toUpper]
        ++ ["Recommendation: " ++ (recommendation.replace "_" " ").toUpper])

/-- `GuidelinesAnalyzer.analyze_applicant` (guidelines.py lines 183-243). -/
def analyze_applicant (M : Matcher) (db : KeywordDB) (strict : Bool)
    (app : Applicant) (content_items : List ContentItem)
    (social_profiles : Option (List SocialProfile)) : AnalysisResult :=
  let flags := applicantFlags M db strict app content_items social_profiles
  let score := calculate_risk_score flags
  let level := determine_risk_level score
  let recommendation := generate_recommendation flags score level
  { applicant_id := app.id
    total_content_items := content_items.length
    flags := flags
    risk_score := score
    risk_level := level
    recommendation := recommendation
    summary := generate_summary flags level recommendation }

/-- Concrete matcher and database for witnesses: every pattern is
well-formed and produces no span. -/
def matcherW4 : Matcher := fun _ _ => some []

def dbW4 : KeywordDB := [("violence_advocacy", [("vpat", "critical")])]

def textW4 : Text := "hello world".data

def itemW4 : ContentItem :=
  { text_content := "a completely harmless description".data
    platform := some "twitter" }

/-- Concrete database for C6: one category holding a critical-severity and
a low-severity pattern. -/
def dbC6 : KeywordDB :=
  [("violence_advocacy", [("pCrit", "critical"), ("pLow", "low")])]

/-- Concrete matcher for C6: the critical pattern matches at span (0, 4),
the low pattern at span (60, 64). -/
def matcherC6 : Matcher := fun p _ =>
  if p = "pCrit" then some [(0, 4)]
  else if p = "pLow" then some [(60, 64)]
  else some []

def textC6 : Text :=
  "kill the government they wrote at the start, and then it is time for action later".data

/-- Modelled from the claim wording for comparison with the source: the
context snippet is the matched span taken from the original
(non-lowercased) text, together with up to 50 characters of surrounding
original text on each side, with an ellipsis marker on a side exactly when
the 50-character window stops short of the text boundary on that side. -/
def contextSpec (text : Text) (s e : Nat) : Text :=
  (if 50 < s then ['.', '.', '.'] else []) ++
    ((text.take s).drop (s - 50) ++
      ((text.drop s).take (e - s) ++
        ((text.drop e).take 50 ++
          (if e + 50 < text.length then ['.', '.', '.'] else []))))

/-- Concrete instances for the C7 witness. -/
def matcherW7 : Matcher := fun _ _ => some [(1, 3)]

def dbW7 : KeywordDB := [("cat1", [("pat1", "low")])]

def textW7 : Text := "Abcdef".data

def matchW7 : KeywordMatch :=
  { keyword := ['b', 'c']
    category := "cat1"
    severity := "low"
    context := "Abcdef".data
    position := 1 }

def textW10 : Text := "XPutinY".data

theorem lookup_pattern_mem (db : KeywordDB) (cat : String)
    (pats : List (String × String)) (h : db.lookup cat = some pats) :
    ∀ ps ∈ pats, ps.1 ∈ dbPatterns db := by
  induction db with
  | nil => simp [List.lookup] at h
  | cons kv rest ih =>
    intro ps hps
    rw [List.lookup] at h
    by_cases hk : cat == kv.1
    · simp only [hk] at h
      cases h
      exact List.mem_flatMap.mpr ⟨kv, List.mem_cons_self _ _,
        List.mem_map.mpr ⟨ps, hps, rfl⟩⟩
    · rw [Bool.not_eq_true] at hk
      simp only [hk] at h
      have hmem := ih h ps hps
      unfold dbPatterns at hmem ⊢
      rw [List.flatMap_cons]
      exact List.mem_append_right _ hmem

theorem flatMap_congr_mem {α β : Type} {l : List α} {f g : α → List β}
    (h : ∀ a ∈ l, f a = g a) : l.flatMap f = l.flatMap g := by
  induction l with
  | nil => rfl
  | cons a t ih =>
    rw [List.flatMap_cons, List.flatMap_cons, h a (List.mem_cons_self _ _),
      ih (fun x hx => h x (List.mem_cons_of_mem _ hx))]

theorem flatMap_filter_of_nil {α β : Type} (l : List α) (p : α → Bool)
    (f : α → List β) (h : ∀ a ∈ l, p a = false → f a = []) :
    (l.filter p).flatMap f = l.flatMap f := by
  induction l with
  | nil => rfl
  | cons a t ih =>
    rw [List.filter_cons]
    by_cases hp : p a
    · rw [if_pos hp, List.flatMap_cons, List.flatMap_cons,
        ih (fun x hx hpx => h x (List.mem_cons_of_mem _ hx) hpx)]
    · rw [if_neg hp, List.flatMap_cons,
        h a (List.mem_cons_self _ _) (Bool.eq_false_iff.mpr hp),
        List.nil_append,
        ih (fun x hx hpx => h x (List.mem_cons_of_mem _ hx) hpx)]

theorem lookup_wellFormedOnly (M : Matcher) (textLower : Text)
    (db : KeywordDB) (cat : String) :
    (wellFormedOnly M textLower db).lookup cat =
      (db.lookup cat).map
        (fun pats => pats.filter (fun ps => (M ps.1 textLower).isSome)) := by
  induction db with
  | nil => rfl
  | cons kv rest ih =>
    unfold wellFormedOnly at ih ⊢
    rw [List.map_cons, List.lookup, List.lookup]
    by_cases hk : cat == kv.1
    · simp only [hk]
      rfl
    · rw [Bool.not_eq_true] at hk
      simp only [hk, ih]

/-- Under `noMatches`, `analyze_text` produces no match at all. -/
theorem analyze_text_eq_nil (M : Matcher) (db : KeywordDB) (text : Text)
    (cats : Option (List String)) (h : noMatches M db text) :
    analyze_text M db text cats = [] := by
  unfold analyze_text
  by_cases he : text.isEmpty
  · rw [if_pos he]
  · rw [if_neg he]
    rw [List.flatMap_eq_nil_iff]
    intro cat _
    cases hl : db.lookup cat with
    | none => rfl
    | some pats =>
      rw [List.flatMap_eq_nil_iff]
      intro ps hps
      cases hM : M ps.1 (toLowerText text) with
      | none => rfl
      | some spans =>
        have hnil := h ps.1 (lookup_pattern_mem db cat pats hl ps hps)
        rw [hM] at hnil
        simp only [Option.getD_some] at hnil
        rw [hnil]
        rfl

/-- Claim C8: a malformed pattern never aborts the scan — `analyze_text`
over any database equals `analyze_text` over the same database with the
malformed patterns (those on which the matcher raises) removed, so the
matches of the remaining well-formed patterns are all still produced and
failure stays local to the single bad pattern. -/
theorem malformed_pattern_failure_is_local (M : Matcher) (db : KeywordDB)
    (text : Text) (cats : Option (List String)) :
    analyze_text M db text cats =
      analyze_text M (wellFormedOnly M (toLowerText text) db) text cats := by
  unfold analyze_text
  by_cases he : text.isEmpty
  · rw [if_pos he, if_pos he]
  · rw [if_neg he, if_neg he]
    have hkeys : categoriesToCheck (wellFormedOnly M (toLowerText text) db)
        cats = categoriesToCheck db cats := by
      unfold categoriesToCheck wellFormedOnly
      cases cats with
      | none => rw [List.map_map]; rfl
      | some cs => cases cs with
        | nil => rw [List.map_map]; rfl
        | cons c cs => rfl
    rw [hkeys]
    apply flatMap_congr_mem
    intro cat _
    rw [lookup_wellFormedOnly]
    cases hl : db.lookup cat with
    | none => rfl
    | some pats =>
      simp only [Option.map_some]
      apply (flatMap_filter_of_nil pats _ _ ?_).symm
      intro ps _ hfail
      cases hM2 : M ps.1 (toLowerText text) with
      | none => rfl
      | some s =>
        rw [hM2] at hfail
        simp at hfail

theorem filter_ne_nil_iff_any {p : ContentFlag → Bool}
    {l : List ContentFlag} : l.filter p ≠ [] ↔ l.any p := by
  rw [ne_eq, List.filter_eq_nil_iff, List.any_eq_true]
  push_neg
  simp

/-- Claim C1: the recommendation computed on a flag list (with its derived
risk score and level, as in `analyze_applicant`) follows the ordered §4.3
decision procedure: reject iff some flag is critical or some high flag lies
in {violence_advocacy, hate_speech, despot_admiration}; otherwise pending
review for level medium/high/critical; otherwise approve when the score is
below 10 with no high/critical flag; otherwise pending review.  In
particular a critical-severity flag forces reject. -/
theorem recommendation_follows_spec (flags : List ContentFlag) :
    generate_recommendation flags (calculate_risk_score flags)
        (determine_risk_level (calculate_risk_score flags)) =
      recommendationSpec flags ∧
    ((∃ f ∈ flags, f.severity = "critical") →
      generate_recommendation flags (calculate_risk_score flags)
        (determine_risk_level (calculate_risk_score flags)) = "reject") := by
  constructor
  · unfold recommendationSpec
    by_cases hrej : flags.any isAutoRejectFlag
    · have h1 : flags.filter isAutoRejectFlag ≠ [] :=
        filter_ne_nil_iff_any.mpr hrej
      simp [generate_recommendation, h1, hrej]
    · have h1 : flags.filter isAutoRejectFlag = [] := by
        by_contra hc
        exact hrej (filter_ne_nil_iff_any.mp hc)
      simp only [generate_recommendation, h1, ne_eq, not_true_eq_false,
        if_false, hrej, Bool.false_eq_true]
      unfold determine_risk_level
      split_ifs <;> simp_all
  · intro ⟨f, hf, hsev⟩
    unfold generate_recommendation
    have h1 : flags.filter isAutoRejectFlag ≠ [] := by
      rw [filter_ne_nil_iff_any, List.any_eq_true]
      exact ⟨f, hf, by simp [isAutoRejectFlag, hsev]⟩
    simp [h1]

/-- Witness for C1: a single critical-severity flag is rejected, and the
code recommendation agrees with the spec-side procedure there. -/
theorem recommendation_follows_spec_witness :
    (∃ f ∈ [criticalFlagW], f.severity = "critical") ∧
    generate_recommendation [criticalFlagW]
        (calculate_risk_score [criticalFlagW])
        (determine_risk_level (calculate_risk_score [criticalFlagW])) =
      "reject" :=
  ⟨⟨criticalFlagW, by simp, rfl⟩,
    (recommendation_follows_spec [criticalFlagW]).2
      ⟨criticalFlagW, by simp, rfl⟩⟩

/-- Claim C2: the risk score is the sum of per-flag severity weights
(critical = 30, high = 20, medium = 10, low = 3, anything else 0) capped at
100, the empty flag list scoring 0; hence it always lies in [0, 100]. -/
theorem risk_score_is_capped_weight_sum (flags : List ContentFlag) :
    calculate_risk_score flags =
      min 100 ((flags.map (fun f =>
        if f.severity = "critical" then 30
        else if f.severity = "high" then 20
        else if f.severity = "medium" then 10
        else if f.severity = "low" then 3
        else 0)).sum) ∧
    calculate_risk_score [] = 0 ∧
    calculate_risk_score flags ≤ 100 := by
  have hw : (fun f : ContentFlag => severity_weights f.severity) =
      (fun f : ContentFlag =>
        if f.severity = "critical" then 30
        else if f.severity = "high" then 20
        else if f.severity = "medium" then 10
        else if f.severity = "low" then 3
        else 0) := by
    funext f; rfl
  refine ⟨?_, rfl, ?_⟩
  · unfold calculate_risk_score
    split_ifs with h
    · subst h; simp
    · rw [hw]
  · unfold calculate_risk_score
    split_ifs with h
    · exact Nat.zero_le _
    · exact Nat.min_le_left _ _

/-- Claim C3: the risk level is the pure threshold function of the score
(≥ 70 critical, ≥ 40 high, ≥ 20 medium, else low) and is monotone in the
score under the order low < medium < high < critical. -/
theorem risk_level_thresholds_and_monotone (s1 s2 : Nat) (h : s1 ≤ s2) :
    determine_risk_level s1 =
      (if 70 ≤ s1 then "critical"
       else if 40 ≤ s1 then "high"
       else if 20 ≤ s1 then "medium"
       else "low") ∧
    riskLevelRank (determine_risk_level s1) ≤
      riskLevelRank (determine_risk_level s2) := by
  constructor
  · unfold determine_risk_level
    rfl
  · unfold determine_risk_level
    split_ifs <;> simp_all [riskLevelRank] <;> omega

/-- Witness for C3 at scores 10 ≤ 70: level "low" versus "critical". -/
theorem risk_level_thresholds_and_monotone_witness :
    determine_risk_level 10 =
      (if 70 ≤ 10 then "critical"
       else if 40 ≤ 10 then "high"
       else if 20 ≤ 10 then "medium"
       else "low") ∧
    riskLevelRank (determine_risk_level 10) ≤
      riskLevelRank (determine_risk_level 70) :=
  risk_level_thresholds_and_monotone 10 70 (by decide)

/-- Claim C9: appending any flag never decreases the risk score (the cap at
100 included). -/
theorem risk_score_monotone_append (flags : List ContentFlag)
    (f : ContentFlag) :
    calculate_risk_score flags ≤ calculate_risk_score (flags ++ [f]) := by
  unfold calculate_risk_score
  by_cases h1 : flags = []
  · subst h1; simp
  · have h2 : flags ++ [f] ≠ [] := by simp
    rw [if_neg h1, if_neg h2, List.map_append, List.sum_append]
    exact min_le_min (le_refl 100) (Nat.le_add_right _ _)

/-- Under `noMatches` and with strict mode off (the default configuration),
`_analyze_content` emits no flag. -/
theorem analyze_content_eq_nil (M : Matcher) (db : KeywordDB) (text : Text)
    (source : String) (url published_at : Option String)
    (h : noMatches M db text) :
    analyze_content M db false text source url published_at = [] := by
  unfold analyze_content
  rw [analyze_text_eq_nil M db text none h]
  simp [categoryKeys]

theorem contentItemFlags_eq_nil (M : Matcher) (db : KeywordDB)
    (item : ContentItem) (h : noMatches M db item.text_content) :
    contentItemFlags M db false item = [] := by
  unfold contentItemFlags
  split_ifs with hne
  · rfl
  · exact analyze_content_eq_nil _ _ _ _ _ _ h

theorem contentItems_flags_nil (M : Matcher) (db : KeywordDB)
    (items : List ContentItem)
    (h : ∀ it ∈ items, noMatches M db it.text_content) :
    items.flatMap (contentItemFlags M db false) = [] := by
  rw [List.flatMap_eq_nil_iff]
  intro it hit
  exact contentItemFlags_eq_nil M db it (h it hit)

/-- With no matching content and no profiles, the applicant's flag list is
just the country flags. -/
theorem applicantFlags_country_only (M : Matcher) (db : KeywordDB)
    (app : Applicant) (items : List ContentItem)
    (h : ∀ it ∈ items, noMatches M db it.text_content) :
    applicantFlags M db false app items none = countryFlags app := by
  unfold applicantFlags
  rw [contentItems_flags_nil M db items h]
  simp [profileFlags]

/-- Claim C4: on any text where no pattern matches, `analyze_text` returns
the empty match list; and `analyze_applicant` (default non-strict
configuration) over an applicant with no country and content items built
only from such texts produces zero flags, risk score 0, risk level low,
recommendation approve, and the zero-findings summary stating the
applicant appears to meet the vetting guidelines. -/
theorem no_match_analysis_is_clean (M : Matcher) (db : KeywordDB)
    (text : Text) (app : Applicant) (items : List ContentItem)
    (hc : app.country = none) (ht : noMatches M db text)
    (hi : ∀ it ∈ items, noMatches M db it.text_content) :
    analyze_text M db text none = [] ∧
    (analyze_applicant M db false app items none).flags = [] ∧
    (analyze_applicant M db false app items none).risk_score = 0 ∧
    (analyze_applicant M db false app items none).risk_level = "low" ∧
    (analyze_applicant M db false app items none).recommendation = "approve" ∧
    (analyze_applicant M db false app items none).summary =
      "No concerning content found. Applicant appears to meet vetting guidelines." := by
  have hF : applicantFlags M db false app items none = [] := by
    rw [applicantFlags_country_only M db app items hi]
    simp [countryFlags, hc]
  refine ⟨analyze_text_eq_nil M db text none ht, ?_, ?_, ?_, ?_, ?_⟩ <;>
    simp [analyze_applicant, hF, calculate_risk_score, determine_risk_level,
      generate_recommendation, generate_summary]

/-- Witness for C4 on a concrete matcher, database, text and item. -/
theorem no_match_analysis_is_clean_witness :
    (({ id := some 7, country := none } : Applicant).country = none ∧
      noMatches matcherW4 dbW4 textW4 ∧
      (∀ it ∈ [itemW4], noMatches matcherW4 dbW4 it.text_content)) ∧
    (analyze_text matcherW4 dbW4 textW4 none = [] ∧
      (analyze_applicant matcherW4 dbW4 false { id := some 7, country := none }
        [itemW4] none).flags = [] ∧
      (analyze_applicant matcherW4 dbW4 false { id := some 7, country := none }
        [itemW4] none).risk_score = 0 ∧
      (analyze_applicant matcherW4 dbW4 false { id := some 7, country := none }
        [itemW4] none).risk_level = "low" ∧
      (analyze_applicant matcherW4 dbW4 false { id := some 7, country := none }
        [itemW4] none).recommendation = "approve" ∧
      (analyze_applicant matcherW4 dbW4 false { id := some 7, country := none }
        [itemW4] none).summary =
        "No concerning content found. Applicant appears to meet vetting guidelines.") :=
  ⟨⟨rfl, by decide, by decide⟩,
    no_match_analysis_is_clean matcherW4 dbW4 textW4
      { id := some 7, country := none } [itemW4] rfl (by decide) (by decide)⟩

/-- Claim C5: country classification is a pure lookup — Russia is fully
authoritarian and alone (with no flagged content) yields exactly the one
high-severity `authoritarian_connection` flag, score 20, level medium,
recommendation pending review; Canada yields no country flag; the
unrecognized "Wakanda" classifies as unknown, non-authoritarian, with no
country flag. -/
theorem country_classification_pure_lookup (M : Matcher) (db : KeywordDB)
    (items : List ContentItem)
    (hi : ∀ it ∈ items, noMatches M db it.text_content) :
    (get_regime_classification "Russia").classification =
      "fully_authoritarian" ∧
    (analyze_applicant M db false { id := none, country := some "Russia" }
        items none).flags =
      [{ category := "authoritarian_connection"
         severity := "high"
         title := "From Fully Authoritarian Regime: Russia"
         description := "The applicant is from Russia, which is classified as a fully authoritarian regime."
         guideline_reference := some "Guideline 1" }] ∧
    (analyze_applicant M db false { id := none, country := some "Russia" }
        items none).risk_score = 20 ∧
    (analyze_applicant M db false { id := none, country := some "Russia" }
        items none).risk_level = "medium" ∧
    (analyze_applicant M db false { id := none, country := some "Russia" }
        items none).recommendation = "pending_review" ∧
    check_country "Canada" = [] ∧
    (get_regime_classification "Wakanda").classification = "unknown" ∧
    (get_regime_classification "Wakanda").is_authoritarian = false ∧
    check_country "Wakanda" = [] := by
  have hF : applicantFlags M db false { id := none, country := some "Russia" }
      items none = check_country "Russia" := by
    rw [applicantFlags_country_only M db _ items hi]
    rfl
  refine ⟨by decide, ?_, ?_, ?_, ?_, by decide, by decide, by decide, by decide⟩ <;>
    · simp only [analyze_applicant, hF]
      decide

/-- Witness for C5: the empty content list instantiates "zero flagged
content items". -/
theorem country_classification_pure_lookup_witness :
    (∀ it ∈ ([] : List ContentItem), noMatches matcherW4 dbW4 it.text_content) ∧
    (analyze_applicant matcherW4 dbW4 false
        { id := none, country := some "Russia" } [] none).risk_score = 20 ∧
    (analyze_applicant matcherW4 dbW4 false
        { id := none, country := some "Russia" } [] none).recommendation =
      "pending_review" ∧
    check_country "Canada" = [] :=
  ⟨by decide,
    (country_classification_pure_lookup matcherW4 dbW4 [] (by decide)).2.2.1,
    (country_classification_pure_lookup matcherW4 dbW4 [] (by decide)).2.2.2.2.1,
    (country_classification_pure_lookup matcherW4 dbW4 [] (by decide)).2.2.2.2.2.1⟩

/-- Claim C6 (code bug): on a group holding a critical match (position 0)
and a low match (position 60), the emitted flag carries severity
"critical" — the first severity present in the fixed order, as the claim
states — but its evidence snippet is the context of the LOW-severity
match, not of the critical one: `best_match = max(category_matches,
key=severity_order.index)` maximises the index into
['critical','high','medium','low'], so it selects a least-severe match,
contradicting the claim and the code's own comment "(highest severity
match)". -/
theorem best_evidence_snippet_from_least_severe_match :
    (analyze_text matcherC6 dbC6 textC6 none).map
        (fun m => (m.severity, m.position)) =
      [("critical", 0), ("low", 60)] ∧
    (analyze_content matcherC6 dbC6 false textC6 "unknown" none none).map
        (fun f => (f.severity, f.evidence_snippet)) =
      [("critical", some (extractContext textC6 60 64))] ∧
    extractContext textC6 60 64 ≠ extractContext textC6 0 4 := by
  decide

theorem window_split (t : Text) (s e b : Nat) (h1 : s ≤ e) (hbe : e ≤ b)
    (_hbl : b ≤ t.length) :
    (t.drop (s - 50)).take (b - (s - 50)) =
      (t.take s).drop (s - 50) ++
        ((t.drop s).take (e - s) ++ (t.drop e).take (b - e)) := by
  have h3 : b - (s - 50) = (s - (s - 50)) + ((e - s) + (b - e)) := by omega
  rw [h3, List.take_add, List.take_add, List.drop_drop, List.drop_drop]
  have h4 : s - 50 + (s - (s - 50)) = s := by omega
  have h5 : s + (e - s) = e := by omega
  rw [h4, h5, List.drop_take]

theorem extractContext_eq_contextSpec (t : Text) (s e : Nat) (h1 : s ≤ e)
    (h2 : e ≤ t.length) : extractContext t s e = contextSpec t s e := by
  have hkey := window_split t s e (min t.length (e + 50)) h1 (by omega)
    (by omega)
  have hright : (t.drop e).take (min t.length (e + 50) - e) =
      (t.drop e).take 50 := by
    by_cases hE : e + 50 ≤ t.length
    · have : min t.length (e + 50) - e = 50 := by omega
      rw [this]
    · have hb : min t.length (e + 50) = t.length := by omega
      rw [hb]
      rw [List.take_of_length_le (by rw [List.length_drop]),
        List.take_of_length_le (by rw [List.length_drop]; omega)]
  rw [hright] at hkey
  simp only [extractContext, contextSpec]
  by_cases hs : 50 < s <;> by_cases hE : e + 50 < t.length
  · rw [if_pos (by omega : 0 < s - 50),
      if_pos (by omega : min t.length (e + 50) < t.length),
      if_pos hs, if_pos hE, hkey]
    simp [List.append_assoc]
  · rw [if_pos (by omega : 0 < s - 50),
      if_neg (by omega : ¬ min t.length (e + 50) < t.length),
      if_pos hs, if_neg hE, hkey]
    simp [List.append_assoc]
  · rw [if_neg (by omega : ¬ 0 < s - 50),
      if_pos (by omega : min t.length (e + 50) < t.length),
      if_neg hs, if_pos hE, hkey]
    simp [List.append_assoc]
  · rw [if_neg (by omega : ¬ 0 < s - 50),
      if_neg (by omega : ¬ min t.length (e + 50) < t.length),
      if_neg hs, if_neg hE, hkey]
    simp [List.append_assoc]

/-- Inversion of membership in `analyze_text`: every produced match comes
from a span reported by the matcher for some pattern of the database. -/
theorem mem_analyze_text {M : Matcher} {db : KeywordDB} {text : Text}
    {cats : Option (List String)} {m : KeywordMatch}
    (hm : m ∈ analyze_text M db text cats) :
    ∃ (cat : String) (ps : String × String) (spans : List (Nat × Nat))
      (sp : Nat × Nat), ps.1 ∈ dbPatterns db ∧
      M ps.1 (toLowerText text) = some spans ∧ sp ∈ spans ∧
      m = mkKeywordMatch text (toLowerText text) cat ps.2 sp := by
  unfold analyze_text at hm
  by_cases he : text.isEmpty
  · rw [if_pos he] at hm
    exact absurd hm (List.not_mem_nil m)
  · rw [if_neg he] at hm
    obtain ⟨cat, hcat, hm2⟩ := List.mem_flatMap.mp hm
    cases hl : db.lookup cat with
    | none =>
      rw [hl] at hm2
      exact absurd hm2 (List.not_mem_nil m)
    | some pats =>
      rw [hl] at hm2
      obtain ⟨ps, hps, hm3⟩ := List.mem_flatMap.mp hm2
      cases hM : M ps.1 (toLowerText text) with
      | none =>
        rw [hM] at hm3
        exact absurd hm3 (List.not_mem_nil m)
      | some spans =>
        rw [hM] at hm3
        obtain ⟨sp, hsp, hmk⟩ := List.mem_map.mp hm3
        exact ⟨cat, ps, spans, sp, lookup_pattern_mem db cat pats hl ps hps,
          hM, hsp, hmk.symm⟩

/-- Claim C7: every match produced by `analyze_text` carries a context
snippet cut from the original (non-lowercased) text — the matched span
plus up to 50 characters each side — with the `'...'` marker on a side
exactly when the window stops short of the text boundary there.  The
hypothesis states that the matcher reports well-formed spans, as
`re.finditer` does. -/
theorem context_window_from_original_text (M : Matcher) (db : KeywordDB)
    (text : Text) (cats : Option (List String))
    (hwf : ∀ p ∈ dbPatterns db, ∀ sp ∈ (M p (toLowerText text)).getD [],
      sp.1 ≤ sp.2 ∧ sp.2 ≤ text.length)
    (m : KeywordMatch) (hm : m ∈ analyze_text M db text cats) :
    m.context = contextSpec text m.position (m.position + m.keyword.length) := by
  obtain ⟨cat, ps, spans, sp, hpat, hM, hsp, hmk⟩ := mem_analyze_text hm
  have hw := hwf ps.1 hpat sp (by rw [hM]; exact hsp)
  subst hmk
  have hlen : (((toLowerText text).drop sp.1).take (sp.2 - sp.1)).length =
      sp.2 - sp.1 := by
    rw [List.length_take, List.length_drop]
    unfold toLowerText
    rw [List.length_map]
    omega
  show extractContext text sp.1 sp.2 =
    contextSpec text sp.1
      (sp.1 + (((toLowerText text).drop sp.1).take (sp.2 - sp.1)).length)
  rw [hlen]
  have h12 : sp.1 + (sp.2 - sp.1) = sp.2 := by omega
  rw [h12]
  exact extractContext_eq_contextSpec text sp.1 sp.2 hw.1 hw.2

/-- Witness for C7 at a concrete matcher, database and text. -/
theorem context_window_from_original_text_witness :
    ((∀ p ∈ dbPatterns dbW7, ∀ sp ∈ (matcherW7 p (toLowerText textW7)).getD [],
        sp.1 ≤ sp.2 ∧ sp.2 ≤ textW7.length) ∧
      matchW7 ∈ analyze_text matcherW7 dbW7 textW7 none) ∧
    matchW7.context =
      contextSpec textW7 matchW7.position
        (matchW7.position + matchW7.keyword.length) :=
  ⟨⟨by decide, by decide⟩,
    context_window_from_original_text matcherW7 dbW7 textW7 none (by decide)
      matchW7 (by decide)⟩

/-- If the literal occurs (as a prefix of the drop) at any position at or
after `start`, the scan from `start` reports at least one match. -/
theorem findIterFrom_ne_nil (lit t : Text) :
    ∀ (d start j : Nat), j - start = d → start ≤ j →
      j + lit.length ≤ t.length → lit.isPrefixOf (t.drop j) = true →
      findIterFrom lit t start ≠ [] := by
  intro d
  induction d using Nat.strong_induction_on with
  | _ d ih =>
    intro start j hd hsj hjl hpre
    unfold findIterFrom
    have hsl : start + lit.length ≤ t.length := by omega
    rw [dif_pos hsl]
    by_cases hp : lit.isPrefixOf (t.drop start) = true
    · rw [if_pos hp]
      exact List.cons_ne_nil _ _
    · rw [if_neg hp]
      have hne : start ≠ j := by
        intro he
        rw [he] at hp
        exact hp hpre
      exact ih (j - (start + 1)) (by omega) (start + 1) j rfl (by omega)
        hjl hpre

theorem findIter_ne_nil (lit t : Text) (i : Nat)
    (hl : i + lit.length ≤ t.length)
    (hpre : lit.isPrefixOf (t.drop i) = true) : findIter lit t ≠ [] :=
  findIterFrom_ne_nil lit t i 0 i (by omega) (Nat.zero_le _) hl hpre

/-- Every span reported by the boundary-anchored scan spans exactly the
literal and sits on word boundaries at both ends. -/
theorem mem_findIterBFrom (lit t : Text) :
    ∀ (n i : Nat), t.length + 1 - i ≤ n → ∀ sp ∈ findIterBFrom lit t i,
      sp.2 = sp.1 + lit.length ∧ isBoundary t sp.1 = true ∧
        isBoundary t sp.2 = true := by
  intro n
  induction n with
  | zero =>
    intro i hn sp hsp
    unfold findIterBFrom at hsp
    rw [dif_neg (by omega : ¬ i + lit.length ≤ t.length)] at hsp
    exact absurd hsp (List.not_mem_nil sp)
  | succ n ih =>
    intro i hn sp hsp
    unfold findIterBFrom at hsp
    by_cases hle : i + lit.length ≤ t.length
    · rw [dif_pos hle] at hsp
      by_cases hcond : (lit.isPrefixOf (t.drop i) && isBoundary t i &&
          isBoundary t (i + lit.length)) = true
      · rw [if_pos hcond] at hsp
        rcases List.mem_cons.mp hsp with h | h
        · subst h
          simp only [Bool.and_eq_true] at hcond
          exact ⟨rfl, hcond.1.2, hcond.2⟩
        · have h1 : 1 ≤ max lit.length 1 := Nat.le_max_right _ _
          exact ih (i + max lit.length 1) (by omega) sp h
      · rw [if_neg hcond] at hsp
        exact ih (i + 1) (by omega) sp hsp
    · rw [dif_neg hle] at hsp
      exact absurd hsp (List.not_mem_nil sp)

theorem mem_findIterB (lit t : Text) (sp : Nat × Nat)
    (hsp : sp ∈ findIterB lit t) :
    sp.2 = sp.1 + lit.length ∧ isBoundary t sp.1 = true ∧
      isBoundary t sp.2 = true :=
  mem_findIterBFrom lit t (t.length + 1) 0 (by omega) sp hsp

/-- Claim C10: leader and entity names are matched as plain
case-insensitive substrings with no word-boundary anchoring — any
occurrence of the lowered name in the lowered text, even inside a longer
word, yields a reported mention — while country names are only ever
reported at positions where both ends of the span sit on `\b` word
boundaries. -/
theorem mention_matching_boundary_discipline :
    (∀ (text : Text) (name : String), name ∈ KNOWN_AUTHORITARIAN_LEADERS →
      (∃ i, i + (toLowerText name.data).length ≤ (toLowerText text).length ∧
        (toLowerText name.data).isPrefixOf ((toLowerText text).drop i) = true) →
      ∃ m ∈ check_for_authoritarian_mentions text,
        m.keyword = name.data ∧ m.category = "authoritarian_mention") ∧
    (∀ (text : Text) (name : String), name ∈ AUTHORITARIAN_ENTITIES →
      (∃ i, i + (toLowerText name.data).length ≤ (toLowerText text).length ∧
        (toLowerText name.data).isPrefixOf ((toLowerText text).drop i) = true) →
      ∃ m ∈ check_for_authoritarian_mentions text,
        m.keyword = name.data ∧ m.category = "authoritarian_entity_mention") ∧
    (∀ (text : Text) (m : KeywordMatch),
      m ∈ check_for_authoritarian_mentions text →
      m.category = "authoritarian_country_mention" →
      isBoundary (toLowerText text) m.position = true ∧
      isBoundary (toLowerText text) (m.position + m.keyword.length) = true) := by
  refine ⟨?_, ?_, ?_⟩
  · intro text name hmem ⟨i, hlen, hpre⟩
    obtain ⟨sp, hsp⟩ := List.exists_mem_of_ne_nil _
      (findIter_ne_nil (toLowerText name.data) (toLowerText text) i hlen hpre)
    refine ⟨mkMention text name "authoritarian_mention" "medium" sp, ?_,
      rfl, rfl⟩
    simp only [check_for_authoritarian_mentions]
    exact List.mem_append_left _ (List.mem_append_left _
      (List.mem_flatMap.mpr ⟨name, hmem, List.mem_map.mpr ⟨sp, hsp, rfl⟩⟩))
  · intro text name hmem ⟨i, hlen, hpre⟩
    obtain ⟨sp, hsp⟩ := List.exists_mem_of_ne_nil _
      (findIter_ne_nil (toLowerText name.data) (toLowerText text) i hlen hpre)
    refine ⟨mkMention text name "authoritarian_entity_mention" "medium" sp,
      ?_, rfl, rfl⟩
    simp only [check_for_authoritarian_mentions]
    exact List.mem_append_left _ (List.mem_append_right _
      (List.mem_flatMap.mpr ⟨name, hmem, List.mem_map.mpr ⟨sp, hsp, rfl⟩⟩))
  · intro text m hm hcat
    simp only [check_for_authoritarian_mentions] at hm
    rcases List.mem_append.mp hm with h12 | h3
    · rcases List.mem_append.mp h12 with h1 | h2
      · obtain ⟨name, _, hmap⟩ := List.mem_flatMap.mp h1
        obtain ⟨sp, _, hmk⟩ := List.mem_map.mp hmap
        rw [← hmk] at hcat
        simp only [mkMention] at hcat
        exact absurd hcat (by decide)
      · obtain ⟨name, _, hmap⟩ := List.mem_flatMap.mp h2
        obtain ⟨sp, _, hmk⟩ := List.mem_map.mp hmap
        rw [← hmk] at hcat
        simp only [mkMention] at hcat
        exact absurd hcat (by decide)
    · obtain ⟨country, _, hmap⟩ := List.mem_flatMap.mp h3
      obtain ⟨sp, hsp, hmk⟩ := List.mem_map.mp hmap
      have hb := mem_findIterB (toLowerText country.data) (toLowerText text)
        sp hsp
      subst hmk
      have hklen : (mkMention text country "authoritarian_country_mention"
          "low" sp).keyword.length = (toLowerText country.data).length := by
        simp only [mkMention]
        unfold toLowerText
        rw [List.length_map]
      refine ⟨hb.2.1, ?_⟩
      show isBoundary (toLowerText text)
        (sp.1 + (mkMention text country "authoritarian_country_mention"
          "low" sp).keyword.length) = true
      rw [hklen, ← hb.1]
      exact hb.2.2

/-- Witness for C10: "Putin" embedded inside the longer word "XPutinY" is
still reported as an authoritarian-leader mention. -/
theorem mention_matching_boundary_discipline_witness :
    ("Putin" ∈ KNOWN_AUTHORITARIAN_LEADERS ∧
      1 + (toLowerText "Putin".data).length ≤ (toLowerText textW10).length ∧
      (toLowerText "Putin".data).isPrefixOf
        ((toLowerText textW10).drop 1) = true) ∧
    (∃ m ∈ check_for_authoritarian_mentions textW10,
      m.keyword = "Putin".data ∧ m.category = "authoritarian_mention") :=
  ⟨⟨by decide, by decide, by decide⟩,
    mention_matching_boundary_discipline.1 textW10 "Putin" (by decide)
      ⟨1, by decide, by decide⟩⟩
